import Mathlib

/-!
Verification of the Honeycomb bot API client examples.

The repository holds two near-duplicate Python scripts, each a thin HTTP
client over the Honeycomb bot REST API:

- src/examples/bot-example.py        (class HoneycombBot, module-level config)
- src/examples/bots/honeycomb_bot.py (class HoneycombBot, instance config)

Each client method builds one HTTP request, then translates the HTTP
response into either a decoded JSON value or a signalled failure.  We embed
each method as two pure functions: a request builder (what is sent) and a
response translator (what the method does with the response it received).
The response translator takes the HTTP response as an explicit argument,
which in the Python code is produced by the blocking requests call.
-/

namespace Honeycomb

/-- JSON values, as decoded by the json method of the requests library. -/
inductive Json where
  | null : Json
  | bool : Bool → Json
  | num : Int → Json
  | str : String → Json
  | arr : List Json → Json
  | obj : List (String × Json) → Json

/-- Field lookup on a decoded JSON object, mirroring Python dict access:
returns the value of the first matching key of an object, and none when the
value is not an object or the key is missing. -/
def Json.get? : Json → String → Option Json
  | .obj fields, key => fields.lookup key
  | _, _ => none

/-- True exactly on JSON arrays. -/
def Json.isArr : Json → Bool
  | .arr _ => true
  | _ => false

/-- Error taxonomy of the client, from section 7 of the specification:
configurationError for missing credentials at construction, requestFailed
for an HTTP error status (carrying the status code), decodeError for a
response body that is not valid JSON. -/
inductive BotError where
  | configurationError : BotError
  | requestFailed : Nat → BotError
  | decodeError : BotError

/-- HTTP request methods used by the client. -/
inductive Method where
  | GET : Method
  | POST : Method

/-- An outgoing HTTP request as assembled by the requests library calls:
the method, the full URL string, the header list, the params dict passed
separately (stringified key-value pairs), and the optional JSON payload. -/
structure HttpRequest where
  method : Method
  url : String
  headers : List (String × String)
  params : List (String × String)
  jsonPayload : Option Json

/-- An HTTP response as seen by the client: the status code, and the body
as parsed JSON when the body parses (none models a body that the json
method of the requests library fails to decode). -/
structure HttpResponse where
  status : Nat
  jsonBody : Option Json

/-- The raise_for_status method of the requests library: it raises HTTPError
exactly when the status code is a 4xx client error or a 5xx server error,
that is when 400 <= status < 600; informational, redirect and success
statuses pass through silently. -/
def raise_for_status (res : HttpResponse) : Except BotError Unit :=
  if 400 ≤ res.status ∧ res.status < 600 then
    Except.error (BotError.requestFailed res.status)
  else
    Except.ok ()

/-- The json method of the requests library on a response: the parsed body,
or a decode failure when the body is not valid JSON. -/
def HttpResponse.json (res : HttpResponse) : Except BotError Json :=
  match res.jsonBody with
  | some j => Except.ok j
  | none => Except.error BotError.decodeError

/-- Python truthiness-based or on an optional list, as in the expression
tags or [] of the source: the left list when it is present and non-empty,
the right operand otherwise. -/
def pyOrList (x : Option (List String)) (d : List String) : List String :=
  match x with
  | none => d
  | some ts => if ts.isEmpty then d else ts

namespace BotExample

/-! Embedding of src/examples/bot-example.py.  Configuration lives in
module-level globals API_BASE, API_KEY, HEADERS; the class has no instance
fields at all.  We collect the globals in an Env record. -/

/-- The module-level globals API_BASE and API_KEY of bot-example.py after
the key has been checked (so api_key is the present key string). -/
structure Env where
  api_base : String
  api_key : String

/-- The module-level HEADERS dict of bot-example.py. -/
def HEADERS (e : Env) : List (String × String) :=
  [("X-API-Key", e.api_key), ("Content-Type", "application/json")]

/-- Result of the module-level startup code of bot-example.py: either the
script exits (exit 1 when the API key is missing) or proceeds with the
configured environment. -/
inductive StartupResult where
  | exits : Nat → StartupResult
  | proceeds : Env → StartupResult

/-- The module-level check of bot-example.py lines 22 to 26: API_KEY is read
from the environment (none when unset); if not API_KEY the script prints an
error and calls exit 1, before any request can be made.  Python falsiness
of a string covers both the unset case and the empty string. -/
def startup (api_key : Option String) (api_base : String) : StartupResult :=
  match api_key with
  | none => StartupResult.exits 1
  | some s =>
    if s.isEmpty then StartupResult.exits 1
    else StartupResult.proceeds { api_base := api_base, api_key := s }

/-- Request of get_profile: GET {API_BASE}/api/bot/me with HEADERS. -/
def get_profile_request (e : Env) : HttpRequest :=
  { method := Method.GET
    url := e.api_base ++ "/api/bot/me"
    headers := HEADERS e
    params := []
    jsonPayload := none }

/-- Response handling of get_profile: raise_for_status then return the
decoded body. -/
def get_profile (res : HttpResponse) : Except BotError Json :=
  match raise_for_status res with
  | Except.error err => Except.error err
  | Except.ok _ => res.json

/-- Request of get_feed: GET {API_BASE}/api/bot/feed?sort={sort} with
HEADERS; the sort value is interpolated into the URL string. -/
def get_feed_request (e : Env) (sort : String) : HttpRequest :=
  { method := Method.GET
    url := e.api_base ++ "/api/bot/feed?sort=" ++ sort
    headers := HEADERS e
    params := []
    jsonPayload := none }

/-- The default argument sort = new of get_feed. -/
def get_feed_request_default (e : Env) : HttpRequest :=
  get_feed_request e ("new")

/-- Response handling of get_feed: raise_for_status, then return the posts
field of the decoded body, defaulting to the empty list when the field is
missing (the Python expression is res.json().get with default []). -/
def get_feed (res : HttpResponse) : Except BotError Json :=
  match raise_for_status res with
  | Except.error err => Except.error err
  | Except.ok _ =>
    match res.json with
    | Except.error err => Except.error err
    | Except.ok j => Except.ok ((j.get? ("posts")).getD (Json.arr []))

/-- Request of get_post: GET {API_BASE}/api/bot/posts/{post_id}. -/
def get_post_request (e : Env) (post_id : String) : HttpRequest :=
  { method := Method.GET
    url := e.api_base ++ "/api/bot/posts/" ++ post_id
    headers := HEADERS e
    params := []
    jsonPayload := none }

/-- Response handling of get_post: raise_for_status, then return the post
field of the decoded body, or an absent value when the field is missing
(the Python expression is res.json().get with no default, yielding None). -/
def get_post (res : HttpResponse) : Except BotError (Option Json) :=
  match raise_for_status res with
  | Except.error err => Except.error err
  | Except.ok _ =>
    match res.json with
    | Except.error err => Except.error err
    | Except.ok j => Except.ok (j.get? ("post"))

/-- The JSON payload built by create_post: data starts as title and body,
and tags is added only when the tags argument is truthy (present and
non-empty), per the conditional if tags in the source. -/
def create_post_payload (title body : String) (tags : Option (List String)) : Json :=
  match tags with
  | none => Json.obj [("title", Json.str title), ("body", Json.str body)]
  | some ts =>
    if ts.isEmpty then Json.obj [("title", Json.str title), ("body", Json.str body)]
    else Json.obj [("title", Json.str title), ("body", Json.str body),
      ("tags", Json.arr (ts.map Json.str))]

/-- Request of create_post: POST {API_BASE}/api/bot/posts with the payload
assembled by create_post_payload. -/
def create_post_request (e : Env) (title body : String) (tags : Option (List String)) :
    HttpRequest :=
  { method := Method.POST
    url := e.api_base ++ "/api/bot/posts"
    headers := HEADERS e
    params := []
    jsonPayload := some (create_post_payload title body tags) }

/-- The default argument tags = None of create_post. -/
def create_post_request_default (e : Env) (title body : String) : HttpRequest :=
  create_post_request e title body none

/-- Response handling of create_post: raise_for_status then return the
decoded body unchanged. -/
def create_post (res : HttpResponse) : Except BotError Json :=
  match raise_for_status res with
  | Except.error err => Except.error err
  | Except.ok _ => res.json

/-- Request of comment: POST {API_BASE}/api/bot/posts/{post_id}/comments
with payload containing only the body field. -/
def comment_request (e : Env) (post_id body : String) : HttpRequest :=
  { method := Method.POST
    url := e.api_base ++ "/api/bot/posts/" ++ post_id ++ "/comments"
    headers := HEADERS e
    params := []
    jsonPayload := some (Json.obj [("body", Json.str body)]) }

/-- Response handling of comment: raise_for_status then return the decoded
body. -/
def comment (res : HttpResponse) : Except BotError Json :=
  match raise_for_status res with
  | Except.error err => Except.error err
  | Except.ok _ => res.json

/-- Request of vote: POST {API_BASE}/api/bot/posts/{post_id}/vote with
payload containing only the direction field, carrying the direction
argument verbatim. -/
def vote_request (e : Env) (post_id direction : String) : HttpRequest :=
  { method := Method.POST
    url := e.api_base ++ "/api/bot/posts/" ++ post_id ++ "/vote"
    headers := HEADERS e
    params := []
    jsonPayload := some (Json.obj [("direction", Json.str direction)]) }

/-- Response handling of vote: raise_for_status then return the decoded
body; the direction argument plays no further role. -/
def vote (res : HttpResponse) : Except BotError Json :=
  match raise_for_status res with
  | Except.error err => Except.error err
  | Except.ok _ => res.json

end BotExample

namespace HoneycombBot

/-! Embedding of src/examples/bots/honeycomb_bot.py.  Configuration lives
in instance fields set once in the constructor; no method ever assigns to
a field afterwards. -/

/-- The module-level default BASE_URL of honeycomb_bot.py. -/
def BASE_URL : String := "https://thehoneycomb.social/api"

/-- The instance state of the HoneycombBot class: api_key, base_url, and
the headers dict, all assigned once in the constructor. -/
structure Bot where
  api_key : String
  base_url : String
  headers : List (String × String)

/-- The constructor of HoneycombBot: it stores the key, the base URL and
the derived headers, performing no validation whatsoever; the Except
return type records that construction can signal no error. -/
def init (api_key : String) (base_url : String) : Except BotError Bot :=
  Except.ok
    { api_key := api_key
      base_url := base_url
      headers := [("X-Bot-API-Key", api_key), ("Content-Type", "application/json")] }

/-- The default argument base_url = BASE_URL of the constructor. -/
def init_default (api_key : String) : Except BotError Bot :=
  init api_key BASE_URL

/-- The guard at the top of main in honeycomb_bot.py lines 102 to 107: when
API_KEY is unset (or empty, by Python falsiness) main prints an error and
returns before constructing the bot, so no request is sent. -/
def main_proceeds (api_key : Option String) : Bool :=
  match api_key with
  | none => false
  | some s => !s.isEmpty

/-- Request of get_me: GET {base_url}/bot/me with the instance headers. -/
def get_me_request (b : Bot) : HttpRequest :=
  { method := Method.GET
    url := b.base_url ++ "/bot/me"
    headers := b.headers
    params := []
    jsonPayload := none }

/-- Response handling of get_me: raise_for_status then return the decoded
body. -/
def get_me (res : HttpResponse) : Except BotError Json :=
  match raise_for_status res with
  | Except.error err => Except.error err
  | Except.ok _ => res.json

/-- The JSON payload built by create_post: always the three fields title,
body and tags, with tags or [] supplying the empty list when the tags
argument is absent. -/
def create_post_payload (title body : String) (tags : Option (List String)) : Json :=
  Json.obj [("title", Json.str title), ("body", Json.str body),
    ("tags", Json.arr ((pyOrList tags []).map Json.str))]

/-- Request of create_post: POST {base_url}/bot/posts with the payload
assembled by create_post_payload. -/
def create_post_request (b : Bot) (title body : String) (tags : Option (List String)) :
    HttpRequest :=
  { method := Method.POST
    url := b.base_url ++ "/bot/posts"
    headers := b.headers
    params := []
    jsonPayload := some (create_post_payload title body tags) }

/-- The default argument tags = None of create_post. -/
def create_post_request_default (b : Bot) (title body : String) : HttpRequest :=
  create_post_request b title body none

/-- Response handling of create_post: raise_for_status then return the
decoded body unchanged. -/
def create_post (res : HttpResponse) : Except BotError Json :=
  match raise_for_status res with
  | Except.error err => Except.error err
  | Except.ok _ => res.json

/-- Request of comment_on_post: POST {base_url}/bot/posts/{post_id}/comments
with payload containing only the body field. -/
def comment_on_post_request (b : Bot) (post_id body : String) : HttpRequest :=
  { method := Method.POST
    url := b.base_url ++ "/bot/posts/" ++ post_id ++ "/comments"
    headers := b.headers
    params := []
    jsonPayload := some (Json.obj [("body", Json.str body)]) }

/-- Response handling of comment_on_post: raise_for_status then return the
decoded body. -/
def comment_on_post (res : HttpResponse) : Except BotError Json :=
  match raise_for_status res with
  | Except.error err => Except.error err
  | Except.ok _ => res.json

/-- Request of vote_on_post: POST {base_url}/bot/posts/{post_id}/vote with
payload containing only the direction field, carrying the direction
argument verbatim. -/
def vote_on_post_request (b : Bot) (post_id direction : String) : HttpRequest :=
  { method := Method.POST
    url := b.base_url ++ "/bot/posts/" ++ post_id ++ "/vote"
    headers := b.headers
    params := []
    jsonPayload := some (Json.obj [("direction", Json.str direction)]) }

/-- The default argument direction = up of vote_on_post. -/
def vote_on_post_request_default (b : Bot) (post_id : String) : HttpRequest :=
  vote_on_post_request b post_id ("up")

/-- Response handling of vote_on_post: raise_for_status then return the
decoded body; the direction argument plays no further role. -/
def vote_on_post (res : HttpResponse) : Except BotError Json :=
  match raise_for_status res with
  | Except.error err => Except.error err
  | Except.ok _ => res.json

/-- Request of get_feed: GET {base_url}/bot/feed with limit and offset
passed in the params dict (stringified by the requests library); the URL
itself carries no query. -/
def get_feed_request (b : Bot) (limit offset : Int) : HttpRequest :=
  { method := Method.GET
    url := b.base_url ++ "/bot/feed"
    headers := b.headers
    params := [("limit", toString limit), ("offset", toString offset)]
    jsonPayload := none }

/-- The default arguments limit = 20, offset = 0 of get_feed. -/
def get_feed_request_default (b : Bot) : HttpRequest :=
  get_feed_request b 20 0

/-- Response handling of get_feed: raise_for_status then return the decoded
body unchanged — the whole envelope, not its posts field (the caller in
main extracts posts itself). -/
def get_feed (res : HttpResponse) : Except BotError Json :=
  match raise_for_status res with
  | Except.error err => Except.error err
  | Except.ok _ => res.json

/-- The default topics list of enable_heartbeat. -/
def default_topics : List String := ["AI", "blockchain", "DeFi"]

/-- The JSON payload built by enable_heartbeat: intervalMinutes,
maxDailyPosts, topics (with topics or default_topics supplying the default
when the argument is absent or empty) and personality. -/
def enable_heartbeat_payload (interval_minutes max_daily_posts : Int)
    (topics : Option (List String)) (personality : String) : Json :=
  Json.obj [("intervalMinutes", Json.num interval_minutes),
    ("maxDailyPosts", Json.num max_daily_posts),
    ("topics", Json.arr ((pyOrList topics default_topics).map Json.str)),
    ("personality", Json.str personality)]

/-- Request of enable_heartbeat: POST {base_url}/bot/heartbeat/enable with
the payload assembled by enable_heartbeat_payload. -/
def enable_heartbeat_request (b : Bot) (interval_minutes max_daily_posts : Int)
    (topics : Option (List String)) (personality : String) : HttpRequest :=
  { method := Method.POST
    url := b.base_url ++ "/bot/heartbeat/enable"
    headers := b.headers
    params := []
    jsonPayload := some (enable_heartbeat_payload interval_minutes max_daily_posts
      topics personality) }

/-- The default arguments of enable_heartbeat: interval_minutes = 30,
max_daily_posts = 48, topics = None, personality = autonomous. -/
def enable_heartbeat_request_default (b : Bot) : HttpRequest :=
  enable_heartbeat_request b 30 48 none ("autonomous")

/-- Response handling of enable_heartbeat: raise_for_status then return the
decoded body. -/
def enable_heartbeat (res : HttpResponse) : Except BotError Json :=
  match raise_for_status res with
  | Except.error err => Except.error err
  | Except.ok _ => res.json

/-- Request of disable_heartbeat: POST {base_url}/bot/heartbeat/disable with
no JSON payload. -/
def disable_heartbeat_request (b : Bot) : HttpRequest :=
  { method := Method.POST
    url := b.base_url ++ "/bot/heartbeat/disable"
    headers := b.headers
    params := []
    jsonPayload := none }

/-- Response handling of disable_heartbeat: raise_for_status then return
the decoded body. -/
def disable_heartbeat (res : HttpResponse) : Except BotError Json :=
  match raise_for_status res with
  | Except.error err => Except.error err
  | Except.ok _ => res.json

/-! Call steps: the full effect of one method call on the client state.
Every method body of the Python class reads self.base_url and self.headers
and assigns to no field of self, so the client state after any call is the
state before it, paired with the translated result. -/

/-- The effect of a get_me call on the client state. -/
def get_me_call (b : Bot) (res : HttpResponse) : Bot × Except BotError Json :=
  (b, get_me res)

/-- The effect of a create_post call on the client state. -/
def create_post_call (b : Bot) (title body : String) (tags : Option (List String))
    (res : HttpResponse) : Bot × Except BotError Json :=
  (b, create_post res)

/-- The effect of a comment_on_post call on the client state. -/
def comment_on_post_call (b : Bot) (post_id body : String) (res : HttpResponse) :
    Bot × Except BotError Json :=
  (b, comment_on_post res)

/-- The effect of a vote_on_post call on the client state. -/
def vote_on_post_call (b : Bot) (post_id direction : String) (res : HttpResponse) :
    Bot × Except BotError Json :=
  (b, vote_on_post res)

/-- The effect of a get_feed call on the client state. -/
def get_feed_call (b : Bot) (limit offset : Int) (res : HttpResponse) :
    Bot × Except BotError Json :=
  (b, get_feed res)

/-- The effect of an enable_heartbeat call on the client state. -/
def enable_heartbeat_call (b : Bot) (interval_minutes max_daily_posts : Int)
    (topics : Option (List String)) (personality : String) (res : HttpResponse) :
    Bot × Except BotError Json :=
  (b, enable_heartbeat res)

/-- The effect of a disable_heartbeat call on the client state. -/
def disable_heartbeat_call (b : Bot) (res : HttpResponse) : Bot × Except BotError Json :=
  (b, disable_heartbeat res)

end HoneycombBot

/-! Theorems settling the claims, one per claim, with counterexamples for
claims the code refutes and witnesses instantiating every hypothesis. -/

/-- C1 counterexample: a response with status 304 — outside the range
[200,299] — on which get_profile of bot-example.py does not signal
requestFailed but succeeds and returns the decoded body, because
raise_for_status of the requests library only raises for 4xx and 5xx
statuses. -/
theorem c1_counterexample :
    299 < 304 ∧
    BotExample.get_profile { status := 304, jsonBody := some (Json.obj []) } =
      Except.ok (Json.obj []) :=
  ⟨by decide, rfl⟩

/-- C1 amended: every method of both clients signals requestFailed carrying
the original status code exactly when the status is in [400,599]; every
status below 400 — the 2xx range, but also 1xx and 3xx — is treated as
success and the decoded JSON body (or the named sub-field) is returned. -/
theorem c1_amended (res : HttpResponse) (j : Json) :
    (400 ≤ res.status → res.status < 600 →
      BotExample.get_profile res = Except.error (BotError.requestFailed res.status) ∧
      BotExample.get_feed res = Except.error (BotError.requestFailed res.status) ∧
      BotExample.get_post res = Except.error (BotError.requestFailed res.status) ∧
      BotExample.create_post res = Except.error (BotError.requestFailed res.status) ∧
      BotExample.comment res = Except.error (BotError.requestFailed res.status) ∧
      BotExample.vote res = Except.error (BotError.requestFailed res.status) ∧
      HoneycombBot.get_me res = Except.error (BotError.requestFailed res.status) ∧
      HoneycombBot.create_post res = Except.error (BotError.requestFailed res.status) ∧
      HoneycombBot.comment_on_post res = Except.error (BotError.requestFailed res.status) ∧
      HoneycombBot.vote_on_post res = Except.error (BotError.requestFailed res.status) ∧
      HoneycombBot.get_feed res = Except.error (BotError.requestFailed res.status) ∧
      HoneycombBot.enable_heartbeat res = Except.error (BotError.requestFailed res.status) ∧
      HoneycombBot.disable_heartbeat res = Except.error (BotError.requestFailed res.status)) ∧
    (res.status < 400 → res.jsonBody = some j →
      BotExample.get_profile res = Except.ok j ∧
      BotExample.get_feed res = Except.ok ((j.get? ("posts")).getD (Json.arr [])) ∧
      BotExample.get_post res = Except.ok (j.get? ("post")) ∧
      BotExample.create_post res = Except.ok j ∧
      BotExample.comment res = Except.ok j ∧
      BotExample.vote res = Except.ok j ∧
      HoneycombBot.get_me res = Except.ok j ∧
      HoneycombBot.create_post res = Except.ok j ∧
      HoneycombBot.comment_on_post res = Except.ok j ∧
      HoneycombBot.vote_on_post res = Except.ok j ∧
      HoneycombBot.get_feed res = Except.ok j ∧
      HoneycombBot.enable_heartbeat res = Except.ok j ∧
      HoneycombBot.disable_heartbeat res = Except.ok j) := by
  constructor
  · intro h1 h2
    simp [BotExample.get_profile, BotExample.get_feed, BotExample.get_post,
      BotExample.create_post, BotExample.comment, BotExample.vote,
      HoneycombBot.get_me, HoneycombBot.create_post, HoneycombBot.comment_on_post,
      HoneycombBot.vote_on_post, HoneycombBot.get_feed, HoneycombBot.enable_heartbeat,
      HoneycombBot.disable_heartbeat, raise_for_status, h1, h2]
  · intro h1 hj
    have hc : ¬(400 ≤ res.status ∧ res.status < 600) := by omega
    simp [BotExample.get_profile, BotExample.get_feed, BotExample.get_post,
      BotExample.create_post, BotExample.comment, BotExample.vote,
      HoneycombBot.get_me, HoneycombBot.create_post, HoneycombBot.comment_on_post,
      HoneycombBot.vote_on_post, HoneycombBot.get_feed, HoneycombBot.enable_heartbeat,
      HoneycombBot.disable_heartbeat, raise_for_status, hc, HttpResponse.json, hj]

/-- C1 witness: the amended theorem instantiated at a failing response with
status 404 and at a succeeding response with status 200. -/
theorem c1_amended_witness :
    BotExample.get_profile { status := 404, jsonBody := none } =
      Except.error (BotError.requestFailed 404) ∧
    HoneycombBot.get_me { status := 200, jsonBody := some Json.null } =
      Except.ok Json.null :=
  ⟨((c1_amended { status := 404, jsonBody := none } Json.null).1
      (by decide) (by decide)).1,
   (((c1_amended { status := 200, jsonBody := some Json.null } Json.null).2
      (by decide) rfl).2.2.2.2.2.2).1⟩

/-- C2 counterexample: create_post of bot-example.py with tags omitted
sends a body holding only title and body — there is no tags field at all,
because the source adds tags to the payload only under the conditional
if tags. -/
theorem c2_counterexample :
    (BotExample.create_post_request { api_base := "https://h.example", api_key := "key0" }
        ("T") ("B") none).jsonPayload =
      some (Json.obj [("title", Json.str ("T")), ("body", Json.str ("B"))]) ∧
    (Json.obj [("title", Json.str ("T")), ("body", Json.str ("B"))]).get? ("tags") = none :=
  ⟨rfl, rfl⟩

/-- C2 amended: create_post of honeycomb_bot.py always sends exactly the
fields title, body and tags, with tags the empty sequence when the caller
omits it; create_post of bot-example.py sends exactly title and body when
tags is omitted or empty, and adds the tags field only for a non-empty
tags list; both variants return the decoded response unchanged. -/
theorem c2_amended (e : BotExample.Env) (b : HoneycombBot.Bot) (title body t : String)
    (ts : List String) (res : HttpResponse) (j : Json) :
    (HoneycombBot.create_post_request b title body none).jsonPayload =
      some (HoneycombBot.create_post_payload title body none) ∧
    HoneycombBot.create_post_payload title body none =
      Json.obj [("title", Json.str title), ("body", Json.str body),
        ("tags", Json.arr [])] ∧
    HoneycombBot.create_post_payload title body (some ts) =
      Json.obj [("title", Json.str title), ("body", Json.str body),
        ("tags", Json.arr (ts.map Json.str))] ∧
    (BotExample.create_post_request e title body none).jsonPayload =
      some (BotExample.create_post_payload title body none) ∧
    BotExample.create_post_payload title body none =
      Json.obj [("title", Json.str title), ("body", Json.str body)] ∧
    BotExample.create_post_payload title body (some []) =
      Json.obj [("title", Json.str title), ("body", Json.str body)] ∧
    BotExample.create_post_payload title body (some (t :: ts)) =
      Json.obj [("title", Json.str title), ("body", Json.str body),
        ("tags", Json.arr ((t :: ts).map Json.str))] ∧
    (res.status < 400 → res.jsonBody = some j →
      BotExample.create_post res = Except.ok j ∧
      HoneycombBot.create_post res = Except.ok j) := by
  refine ⟨rfl, rfl, ?_, rfl, rfl, rfl, rfl, ?_⟩
  · cases ts with
    | nil => rfl
    | cons x xs => rfl
  · intro h1 hj
    have hc : ¬(400 ≤ res.status ∧ res.status < 600) := by omega
    simp [BotExample.create_post, HoneycombBot.create_post, raise_for_status, hc,
      HttpResponse.json, hj]

/-- C2 witness: the amended theorem instantiated at concrete arguments and
a succeeding response with status 201. -/
theorem c2_amended_witness :
    HoneycombBot.create_post_payload ("T") ("B") none =
      Json.obj [("title", Json.str ("T")), ("body", Json.str ("B")),
        ("tags", Json.arr [])] ∧
    BotExample.create_post ({ status := 201, jsonBody := some Json.null }) =
      Except.ok Json.null :=
  ⟨(c2_amended { api_base := "https://h.example", api_key := "key0" }
      { api_key := "key0", base_url := HoneycombBot.BASE_URL, headers := [] }
      ("T") ("B") ("x") [] { status := 201, jsonBody := some Json.null }
      Json.null).2.1,
   ((c2_amended { api_base := "https://h.example", api_key := "key0" }
      { api_key := "key0", base_url := HoneycombBot.BASE_URL, headers := [] }
      ("T") ("B") ("x") [] { status := 201, jsonBody := some Json.null }
      Json.null).2.2.2.2.2.2.2 (by decide) rfl).1⟩

/-- C3 counterexample: constructing the honeycomb_bot.py client with an
absent (empty, hence Python-falsy) API key succeeds and stores the empty
key, signalling no ConfigurationError: the constructor performs no
validation at all. -/
theorem c3_counterexample :
    HoneycombBot.init_default ("") =
      Except.ok (⟨"", HoneycombBot.BASE_URL,
        [("X-Bot-API-Key", ""), ("Content-Type", "application/json")]⟩ : HoneycombBot.Bot) :=
  rfl

/-- C3 amended: construction itself never signals ConfigurationError — the
honeycomb_bot.py constructor accepts any key unvalidated.  Instead each
script guards before any request can be sent: bot-example.py exits with
code 1 at module load when the key is unset or empty, and the main of
honeycomb_bot.py returns before constructing the client, so in both cases
no HTTP request is sent when the key is absent. -/
theorem c3_amended (api_base k u : String) :
    BotExample.startup none api_base = BotExample.StartupResult.exits 1 ∧
    BotExample.startup (some ("")) api_base = BotExample.StartupResult.exits 1 ∧
    HoneycombBot.main_proceeds none = false ∧
    HoneycombBot.main_proceeds (some ("")) = false ∧
    (HoneycombBot.init k u).isOk = true :=
  ⟨rfl, rfl, rfl, rfl, rfl⟩

/-- C4 counterexample: on a 200 feed response whose body wraps one post
under the posts field, get_feed of honeycomb_bot.py returns the whole
envelope object — which is not a sequence — rather than the posts
sequence, refuting the claim that both variants extract the posts field. -/
theorem c4_counterexample :
    HoneycombBot.get_feed
        ⟨200, some (Json.obj [("posts", Json.arr [Json.obj [("id", Json.str ("p1"))]])])⟩ =
      Except.ok (Json.obj [("posts", Json.arr [Json.obj [("id", Json.str ("p1"))]])]) ∧
    (Json.obj [("posts", Json.arr [Json.obj [("id", Json.str ("p1"))]])]).isArr = false :=
  ⟨rfl, rfl⟩

/-- C4 amended: on a 2xx feed response, get_feed of bot-example.py (the
sort variant) returns the sequence stored under the posts field of the
envelope, while get_feed of honeycomb_bot.py (the limit and offset
variant) returns the whole envelope unchanged and leaves the extraction of
posts to its caller. -/
theorem c4_amended (res : HttpResponse) (j : Json) (ps : List Json)
    (rest : List (String × Json)) :
    (200 ≤ res.status → res.status ≤ 299 → res.jsonBody = some j →
      BotExample.get_feed res = Except.ok ((j.get? ("posts")).getD (Json.arr [])) ∧
      HoneycombBot.get_feed res = Except.ok j) ∧
    (200 ≤ res.status → res.status ≤ 299 →
      res.jsonBody = some (Json.obj (("posts", Json.arr ps) :: rest)) →
      BotExample.get_feed res = Except.ok (Json.arr ps)) := by
  constructor
  · intro h1 h2 hj
    have hc : ¬(400 ≤ res.status ∧ res.status < 600) := by omega
    simp [BotExample.get_feed, HoneycombBot.get_feed, raise_for_status, hc,
      HttpResponse.json, hj]
  · intro h1 h2 hj
    have hc : ¬(400 ≤ res.status ∧ res.status < 600) := by omega
    simp [BotExample.get_feed, raise_for_status, hc, HttpResponse.json, hj,
      Json.get?, List.lookup]

/-- C4 witness: the amended theorem instantiated at a concrete 200 feed
response wrapping one post under the posts field. -/
theorem c4_amended_witness :
    BotExample.get_feed ⟨200, some (Json.obj [("posts", Json.arr [Json.null])])⟩ =
      Except.ok (Json.arr [Json.null]) :=
  (c4_amended ⟨200, some (Json.obj [("posts", Json.arr [Json.null])])⟩
    (Json.obj [("posts", Json.arr [Json.null])]) [Json.null] []).2
    (by decide) (by decide) rfl

/-- C5: the client holds no mutable state between calls.  The state of the
honeycomb_bot.py client after any method call equals the state before it
(no method body assigns to any field of self), and the result of a call
depends only on its own arguments and response, so calls commute with one
another; the bot-example.py class has no instance fields at all, and its
module-level configuration is never reassigned after startup, which the
embedding reflects by passing the environment unchanged to every request
builder. -/
theorem c5_stateless (b : HoneycombBot.Bot) (res res2 : HttpResponse)
    (title body pid dir pers : String) (tags topics : Option (List String))
    (limit offset im mdp : Int) :
    (HoneycombBot.get_me_call b res).1 = b ∧
    (HoneycombBot.create_post_call b title body tags res).1 = b ∧
    (HoneycombBot.comment_on_post_call b pid body res).1 = b ∧
    (HoneycombBot.vote_on_post_call b pid dir res).1 = b ∧
    (HoneycombBot.get_feed_call b limit offset res).1 = b ∧
    (HoneycombBot.enable_heartbeat_call b im mdp topics pers res).1 = b ∧
    (HoneycombBot.disable_heartbeat_call b res).1 = b ∧
    (HoneycombBot.get_me_call ((HoneycombBot.create_post_call b title body tags res).1)
        res2).2 =
      (HoneycombBot.get_me_call b res2).2 ∧
    (HoneycombBot.create_post_call ((HoneycombBot.get_me_call b res2).1) title body tags
        res).2 =
      (HoneycombBot.create_post_call b title body tags res).2 ∧
    HoneycombBot.get_me_request ((HoneycombBot.vote_on_post_call b pid dir res).1) =
      HoneycombBot.get_me_request b :=
  ⟨rfl, rfl, rfl, rfl, rfl, rfl, rfl, rfl, rfl, rfl⟩

/-- C6 counterexample: a 200 response whose body is a valid JSON object
without the expected field, on which get_feed of bot-example.py returns
the empty sequence and get_post returns an absent value — both defaults,
neither a DecodeError — because the source reads the fields with the
Python dict get method and its default. -/
theorem c6_counterexample :
    BotExample.get_feed ⟨200, some (Json.obj [("ok", Json.bool true)])⟩ =
      Except.ok (Json.arr []) ∧
    BotExample.get_post ⟨200, some (Json.obj [("ok", Json.bool true)])⟩ =
      Except.ok none :=
  ⟨rfl, rfl⟩

/-- C6 amended: on a 2xx response whose body is valid JSON but lacks the
expected field, the methods return a default rather than signalling
DecodeError: get_feed returns the empty sequence and get_post returns an
absent value; DecodeError is signalled only when the body is not valid
JSON at all. -/
theorem c6_amended (res : HttpResponse) (j : Json) :
    (200 ≤ res.status → res.status ≤ 299 → res.jsonBody = some j →
      (j.get? ("posts") = none → BotExample.get_feed res = Except.ok (Json.arr [])) ∧
      (j.get? ("post") = none → BotExample.get_post res = Except.ok none)) ∧
    (200 ≤ res.status → res.status ≤ 299 → res.jsonBody = none →
      BotExample.get_feed res = Except.error BotError.decodeError ∧
      BotExample.get_post res = Except.error BotError.decodeError) := by
  constructor
  · intro h1 h2 hj
    have hc : ¬(400 ≤ res.status ∧ res.status < 600) := by omega
    constructor
    · intro hp
      simp [BotExample.get_feed, raise_for_status, hc, HttpResponse.json, hj, hp]
    · intro hp
      simp [BotExample.get_post, raise_for_status, hc, HttpResponse.json, hj, hp]
  · intro h1 h2 hj
    have hc : ¬(400 ≤ res.status ∧ res.status < 600) := by omega
    constructor
    · simp [BotExample.get_feed, raise_for_status, hc, HttpResponse.json, hj]
    · simp [BotExample.get_post, raise_for_status, hc, HttpResponse.json, hj]

/-- C6 witness: the amended theorem instantiated at a 200 response whose
valid JSON body has no posts and no post field. -/
theorem c6_amended_witness :
    BotExample.get_feed ⟨200, some (Json.obj [("ok", Json.bool false)])⟩ =
      Except.ok (Json.arr []) :=
  ((c6_amended ⟨200, some (Json.obj [("ok", Json.bool false)])⟩
    (Json.obj [("ok", Json.bool false)])).1 (by decide) (by decide) rfl).1 rfl

/-- C7: both vote methods place the direction argument verbatim — for every
string value, not only up and down — in the direction field of the JSON
payload, with no local mutation and no local rejection: the response
handling ignores the direction entirely, failing exactly when the server
answers with an error status and succeeding (returning the decoded body)
otherwise. -/
theorem c7_direction_forwarded (e : BotExample.Env) (b : HoneycombBot.Bot)
    (pid direction : String) (res : HttpResponse) (j : Json) :
    (BotExample.vote_request e pid direction).jsonPayload =
      some (Json.obj [("direction", Json.str direction)]) ∧
    (HoneycombBot.vote_on_post_request b pid direction).jsonPayload =
      some (Json.obj [("direction", Json.str direction)]) ∧
    HoneycombBot.vote_on_post_request_default b pid =
      HoneycombBot.vote_on_post_request b pid ("up") ∧
    (400 ≤ res.status → res.status < 600 →
      BotExample.vote res = Except.error (BotError.requestFailed res.status) ∧
      HoneycombBot.vote_on_post res = Except.error (BotError.requestFailed res.status)) ∧
    (res.status < 400 → res.jsonBody = some j →
      BotExample.vote res = Except.ok j ∧
      HoneycombBot.vote_on_post res = Except.ok j) := by
  refine ⟨rfl, rfl, rfl, ?_, ?_⟩
  · intro h1 h2
    simp [BotExample.vote, HoneycombBot.vote_on_post, raise_for_status, h1, h2]
  · intro h1 hj
    have hc : ¬(400 ≤ res.status ∧ res.status < 600) := by omega
    simp [BotExample.vote, HoneycombBot.vote_on_post, raise_for_status, hc,
      HttpResponse.json, hj]

/-- C7 witness: the theorem instantiated with the invalid direction value
sideways, a 400 rejecting response, and a 200 accepting response. -/
theorem c7_direction_forwarded_witness :
    (BotExample.vote_request ⟨"https://h.example", "key0"⟩ ("p1") ("sideways")).jsonPayload =
      some (Json.obj [("direction", Json.str ("sideways"))]) ∧
    BotExample.vote ⟨400, none⟩ = Except.error (BotError.requestFailed 400) ∧
    BotExample.vote ⟨200, some Json.null⟩ = Except.ok Json.null :=
  ⟨(c7_direction_forwarded ⟨"https://h.example", "key0"⟩
      ⟨"key0", HoneycombBot.BASE_URL, []⟩ ("p1") ("sideways") ⟨400, none⟩ Json.null).1,
   ((c7_direction_forwarded ⟨"https://h.example", "key0"⟩
      ⟨"key0", HoneycombBot.BASE_URL, []⟩ ("p1") ("sideways") ⟨400, none⟩
      Json.null).2.2.2.1 (by decide) (by decide)).1,
   ((c7_direction_forwarded ⟨"https://h.example", "key0"⟩
      ⟨"key0", HoneycombBot.BASE_URL, []⟩ ("p1") ("sideways") ⟨200, some Json.null⟩
      Json.null).2.2.2.2 (by decide) rfl).1⟩

/-- C8: for any two get_feed calls, the requests share the HTTP method GET,
the headers and the path, and differ only in the query parameters: in the
sort variant the URL is the fixed path followed by the query ?sort= and
the sort value, and in the limit and offset variant the URL is literally
identical with only the params dict differing; the no-argument call sends
the default parameters sort=new, respectively limit=20 and offset=0. -/
theorem c8_feed_query_only (e : BotExample.Env) (b : HoneycombBot.Bot)
    (s1 s2 : String) (l1 o1 l2 o2 : Int) :
    (BotExample.get_feed_request e s1).method = Method.GET ∧
    (BotExample.get_feed_request e s1).url =
      e.api_base ++ ("/api/bot/feed?sort=") ++ s1 ∧
    (BotExample.get_feed_request e s1).headers =
      (BotExample.get_feed_request e s2).headers ∧
    (BotExample.get_feed_request e s1).params =
      (BotExample.get_feed_request e s2).params ∧
    (BotExample.get_feed_request e s1).jsonPayload =
      (BotExample.get_feed_request e s2).jsonPayload ∧
    BotExample.get_feed_request_default e = BotExample.get_feed_request e ("new") ∧
    (HoneycombBot.get_feed_request b l1 o1).method = Method.GET ∧
    (HoneycombBot.get_feed_request b l1 o1).url =
      (HoneycombBot.get_feed_request b l2 o2).url ∧
    (HoneycombBot.get_feed_request b l1 o1).headers =
      (HoneycombBot.get_feed_request b l2 o2).headers ∧
    (HoneycombBot.get_feed_request b l1 o1).params =
      [("limit", toString l1), ("offset", toString o1)] ∧
    HoneycombBot.get_feed_request_default b = HoneycombBot.get_feed_request b 20 0 :=
  ⟨rfl, rfl, rfl, rfl, rfl, rfl, rfl, rfl, rfl, rfl, rfl⟩

/-- C9: get_post of bot-example.py sends GET to the fixed path followed by
the post id, and on a 2xx response returns exactly the content of the post
field of the envelope; when that field is missing — the shape a server
uses for a post that does not exist within a 200 response — the result is
the absent value, not an error. -/
theorem c9_get_post_envelope (e : BotExample.Env) (pid : String) (res : HttpResponse)
    (j : Json) (hpid : pid ≠ "") (h1 : 200 ≤ res.status) (h2 : res.status ≤ 299)
    (hj : res.jsonBody = some j) :
    (BotExample.get_post_request e pid).method = Method.GET ∧
    (BotExample.get_post_request e pid).url = e.api_base ++ ("/api/bot/posts/") ++ pid ∧
    BotExample.get_post res = Except.ok (j.get? ("post")) ∧
    (j.get? ("post") = none → BotExample.get_post res = Except.ok none) := by
  have hc : ¬(400 ≤ res.status ∧ res.status < 600) := by omega
  refine ⟨rfl, rfl, ?_, ?_⟩
  · simp [BotExample.get_post, raise_for_status, hc, HttpResponse.json, hj]
  · intro hp
    simp [BotExample.get_post, raise_for_status, hc, HttpResponse.json, hj, hp]

/-- C9 witness: the theorem instantiated at the id p1 and a 200 response
whose envelope wraps a post under the post field. -/
theorem c9_get_post_envelope_witness :
    BotExample.get_post ⟨200, some (Json.obj [("post", Json.str ("x"))])⟩ =
      Except.ok (some (Json.str ("x"))) :=
  (c9_get_post_envelope ⟨"https://h.example", "key0"⟩ ("p1")
    ⟨200, some (Json.obj [("post", Json.str ("x"))])⟩
    (Json.obj [("post", Json.str ("x"))]) (by decide) (by decide) (by decide) rfl).2.2.1

/-- C10: in enable_heartbeat of honeycomb_bot.py, an omitted topics
argument and an empty topics list both make the request body carry the
default topics AI, blockchain, DeFi (the Python expression topics or
default), so the topics list actually sent is never empty; and the
no-argument call sends personality autonomous along with the defaults
intervalMinutes=30 and maxDailyPosts=48. -/
theorem c10_heartbeat_defaults (b : HoneycombBot.Bot) (im mdp : Int) (pers : String)
    (topics : Option (List String)) :
    (HoneycombBot.enable_heartbeat_request b im mdp none pers).jsonPayload =
      some (HoneycombBot.enable_heartbeat_payload im mdp none pers) ∧
    (HoneycombBot.enable_heartbeat_payload im mdp none pers).get? ("topics") =
      some (Json.arr (HoneycombBot.default_topics.map Json.str)) ∧
    (HoneycombBot.enable_heartbeat_payload im mdp (some []) pers).get? ("topics") =
      some (Json.arr (HoneycombBot.default_topics.map Json.str)) ∧
    (HoneycombBot.enable_heartbeat_payload im mdp topics pers).get? ("topics") =
      some (Json.arr ((pyOrList topics HoneycombBot.default_topics).map Json.str)) ∧
    ((pyOrList topics HoneycombBot.default_topics).map Json.str).isEmpty = false ∧
    HoneycombBot.enable_heartbeat_request_default b =
      HoneycombBot.enable_heartbeat_request b 30 48 none ("autonomous") ∧
    (HoneycombBot.enable_heartbeat_payload 30 48 none ("autonomous")).get? ("personality") =
      some (Json.str ("autonomous")) := by
  refine ⟨rfl, rfl, rfl, rfl, ?_, rfl, rfl⟩
  cases topics with
  | none => rfl
  | some ts =>
    cases ts with
    | nil => rfl
    | cons t ts2 => rfl

end Honeycomb
